import Mathlib

/-!
# Verification of the mediasoup-client negotiation layer

Shallow embedding of the repository's handler state machines
(`Firefox60.js` with its `SendHandler`/`RecvHandler`, and the plan-B
`Safari11` handler found in the unnamed source file) together with a
spec-modelled capability negotiator.  The native `RTCPeerConnection`
is an external collaborator: its fallible operations are modelled by
an environment record that decides, per step, whether the step
succeeds or fails, and each handler operation is a pure function from
the environment and the handler state to an outcome (new state, trace
of transport steps performed, and an optional error).
-/

namespace Mediasoup

/-! ## Capability negotiator (spec-modelled)

The `ortc` module referenced by both handler files is not part of the
source tree; only its callers and test fixtures are.  The definitions
in this section are therefore modelled from the spec. -/

namespace Ortc

/-- Modelled from the spec: one RTCP feedback mechanism of a codec
capability ("ordered set of feedback mechanisms (type + optional
parameter)"); the `ortc` module itself is missing from the sources. -/
structure RtcpFeedback where
  fbType : String
  parameter : Option String
deriving DecidableEq, Repr

/-- Modelled from the spec: a `CodecCapability` — "name, media kind,
clock rate, channel count (audio only), preferred/fixed payload-type
number, ordered set of feedback mechanisms, free-form parameter
mapping"; the `ortc` module is missing from the sources. -/
structure CodecCapability where
  name : String
  kind : String
  clockRate : Nat
  channels : Option Nat
  preferredPayloadType : Nat
  rtcpFeedback : List RtcpFeedback
  parameters : List (String × String)
deriving DecidableEq, Repr

/-- Modelled from the spec: a `HeaderExtensionCapability` — "media
kind, URI, preferred numeric identifier". -/
structure HeaderExtension where
  kind : String
  uri : String
  preferredId : Nat
deriving DecidableEq, Repr

/-- Modelled from the spec: an `RtpCapabilitySet` — ordered codecs
plus ordered header extensions. -/
structure RtpCapabilitySet where
  codecs : List CodecCapability
  headerExtensions : List HeaderExtension
deriving DecidableEq, Repr

/-- Character-wise lowercase of a string (the JS `toLowerCase` used
for case-insensitive codec-name comparison). -/
def lowerStr (s : String) : String :=
  (s.data.map Char.toLower).asString

/-- Modelled from the spec: "Two codecs match if kind, name
(case-insensitive), clock rate, and channel count are equal; payload
type is negotiated, not matched." -/
def matchCodecs (a b : CodecCapability) : Bool :=
  a.kind == b.kind && lowerStr a.name == lowerStr b.name &&
  a.clockRate == b.clockRate && a.channels == b.channels

/-- A retransmission codec is recognised by its (case-insensitive) name. -/
def isRtx (c : CodecCapability) : Bool :=
  lowerStr c.name == "rtx"

/-- The `apt` entry of a codec's parameter mapping, as written. -/
def aptParam (c : CodecCapability) : Option String :=
  c.parameters.lookup "apt"

/-- Modelled from the spec: an `ExtendedCodecCapability` — "pairing of
one local and one matched remote codec capability, plus the resolved
numeric send and receive payload types, plus any retransmission (rtx)
codec paired to it by the `apt` parameter reference".  Both sides'
feedback/parameters are kept so each directional projection can pick
its side. -/
structure ExtendedCodec where
  name : String
  kind : String
  clockRate : Nat
  channels : Option Nat
  sendPayloadType : Nat
  recvPayloadType : Nat
  sendRtxPayloadType : Option Nat
  recvRtxPayloadType : Option Nat
  localRtcpFeedback : List RtcpFeedback
  localParameters : List (String × String)
  remoteRtcpFeedback : List RtcpFeedback
  remoteParameters : List (String × String)
deriving DecidableEq, Repr

/-- Modelled from the spec: a matched header extension carrying "its
negotiated numeric identifier (send-side and receive-side may differ;
recv always prefers the router's id)". -/
structure ExtendedHeaderExtension where
  kind : String
  uri : String
  sendId : Nat
  recvId : Nat
deriving DecidableEq, Repr

/-- Modelled from the spec: the `ExtendedCapabilitySet`. -/
structure ExtendedRtpCapabilities where
  codecs : List ExtendedCodec
  headerExtensions : List ExtendedHeaderExtension
deriving DecidableEq, Repr

/-- Modelled from the spec: first pass of
`computeExtendedCapabilities` — "iterates remote codecs in
router-declared order, for each finds the first matching local codec";
non-rtx codecs only, send payload type from the local entry, receive
payload type from the remote entry; unmatched codecs are silently
omitted. -/
def computeExtendedCodecs (localCaps remoteCaps : RtpCapabilitySet) :
    List ExtendedCodec :=
  remoteCaps.codecs.filterMap fun rc =>
    if isRtx rc then none
    else
      match localCaps.codecs.find? (fun lc => !isRtx lc && matchCodecs lc rc) with
      | none => none
      | some lc =>
        some
          { name := rc.name
            kind := rc.kind
            clockRate := rc.clockRate
            channels := rc.channels
            sendPayloadType := lc.preferredPayloadType
            recvPayloadType := rc.preferredPayloadType
            sendRtxPayloadType := none
            recvRtxPayloadType := none
            localRtcpFeedback := lc.rtcpFeedback
            localParameters := lc.parameters
            remoteRtcpFeedback := rc.rtcpFeedback
            remoteParameters := rc.parameters }

/-- Modelled from the spec: second pass — "rtx codecs are resolved in
a second pass so their `apt` reference can be checked against
already-resolved non-rtx entries"; unresolvable rtx entries are
dropped, not errored. -/
def attachRtx (localCaps remoteCaps : RtpCapabilitySet)
    (cs : List ExtendedCodec) : List ExtendedCodec :=
  cs.map fun e =>
    match remoteCaps.codecs.find?
        (fun rc => isRtx rc && rc.kind == e.kind &&
          aptParam rc == some (Nat.repr e.recvPayloadType)) with
    | none => e
    | some rrtx =>
      match localCaps.codecs.find?
          (fun lc => isRtx lc && lc.kind == e.kind &&
            aptParam lc == some (Nat.repr e.sendPayloadType)) with
      | none => e
      | some lrtx =>
        { e with
          sendRtxPayloadType := some lrtx.preferredPayloadType
          recvRtxPayloadType := some rrtx.preferredPayloadType }

/-- Modelled from the spec: "Header extensions are intersected by URI,
independent of order, requiring kind compatibility"; recv prefers the
router's (remote) id, send uses the local id. -/
def computeExtendedHeaderExtensions (localCaps remoteCaps : RtpCapabilitySet) :
    List ExtendedHeaderExtension :=
  remoteCaps.headerExtensions.filterMap fun re =>
    match localCaps.headerExtensions.find?
        (fun le => le.uri == re.uri && le.kind == re.kind) with
    | none => none
    | some le =>
      some { kind := re.kind, uri := re.uri
             sendId := le.preferredId, recvId := re.preferredId }

/-- Modelled from the spec:
`computeExtendedCapabilities(local, remote)` — deterministic,
order-preserving intersection of the two capability sets. -/
def computeExtendedCapabilities (localCaps remoteCaps : RtpCapabilitySet) :
    ExtendedRtpCapabilities :=
  { codecs := attachRtx localCaps remoteCaps
      (computeExtendedCodecs localCaps remoteCaps)
    headerExtensions := computeExtendedHeaderExtensions localCaps remoteCaps }

/-- One codec entry of a projected RTP parameter set. -/
structure RtpCodecParameters where
  name : String
  payloadType : Nat
  clockRate : Nat
  channels : Option Nat
  rtcpFeedback : List RtcpFeedback
  parameters : List (String × String)
deriving DecidableEq, Repr

/-- One header-extension entry of a projected RTP parameter set. -/
structure RtpHeaderExtensionParameters where
  uri : String
  id : Nat
deriving DecidableEq, Repr

/-- A projected RTP parameter set; the negotiator "produces no
encodings (ssrc assignment is per-track, added later by the
Handler)". -/
structure RtpParameters where
  codecs : List RtpCodecParameters
  headerExtensions : List RtpHeaderExtensionParameters
  encodings : List Nat
deriving DecidableEq, Repr

/-- Modelled from the spec: `getSendingRtpParameters(kind, extended)`
— "projects every ExtendedCodecCapability for the given kind into a
codec entry using the send-side payload type, the feedback mechanisms
and parameters taken from the local capability (never the remote
one)", matched header extensions with their send-side id, and no
encodings. -/
def getSendingRtpParameters (kind : String)
    (ext : ExtendedRtpCapabilities) : RtpParameters :=
  { codecs := ext.codecs.filterMap fun c =>
      if c.kind == kind then
        some { name := c.name
               payloadType := c.sendPayloadType
               clockRate := c.clockRate
               channels := c.channels
               rtcpFeedback := c.localRtcpFeedback
               parameters := c.localParameters }
      else none
    headerExtensions := ext.headerExtensions.filterMap fun e =>
      if e.kind == kind then some { uri := e.uri, id := e.sendId } else none
    encodings := [] }

end Ortc

/-! ## Handler state machines

Shallow embedding of `Firefox60.js` (`SendHandler`, `RecvHandler`) and
of the plan-B `Safari11` handler.  `RTCPeerConnection` and the SDP
builder are external collaborators; an `Env` record injects, per
transport step, either success or a failure code, and records which
external lookups (`getSenders().find`, `getTransceivers().find`,
`getReceivers().find`) succeed. -/

/-- A transport-adapter step performed during one handler operation. -/
inductive Step where
  | createOffer
  | createAnswer
  | setLocalDesc
  | setRemoteDesc
  | connectEmit
  | addTrack
  | removeTrack
  | replaceTrack
  | setParameters
deriving DecidableEq, Repr

/-- Errors surfaced by handler operations: `DuplicatedError`,
`UnsupportedError`, plain `Error` for missing senders/receivers,
a propagated transport failure (with its code), and the TypeError a
JS property access on `undefined` raises. -/
inductive Err where
  | duplicated
  | unsupported
  | notFound
  | negotiation (code : Nat)
  | typeErr
deriving DecidableEq, Repr

/-- Result of one handler operation: the state after the call, the
trace of transport steps performed, and the error, if any, that the
awaited operation rethrew. -/
structure Outcome (St : Type) where
  st : St
  trace : List Step
  err : Option Err
deriving DecidableEq, Repr

/-- Failure injection for the external collaborators during a single
handler operation.  A `some code` means the corresponding transport
step rejects with that code; the Booleans give the results of the
external lookups the source performs. -/
structure Env where
  createOfferErr : Option Nat
  createAnswerErr : Option Nat
  setLocalDescErr : Option Nat
  setRemoteDescErr : Option Nat
  connectErr : Option Nat
  addTrackErr : Option Nat
  replaceTrackErr : Option Nat
  setParametersErr : Option Nat
  signalingStable : Bool
  senderFound : Bool
  transceiverFound : Bool
deriving DecidableEq, Repr

/-- The all-success environment: every transport step succeeds and
every lookup finds its object. -/
def okEnv : Env :=
  { createOfferErr := none
    createAnswerErr := none
    setLocalDescErr := none
    setRemoteDescErr := none
    connectErr := none
    addTrackErr := none
    replaceTrackErr := none
    setParametersErr := none
    signalingStable := false
    senderFound := true
    transceiverFound := true }

/-- The transport-readiness flag (`_transportReady`) plus a counter of
upward `@connect` notifications emitted by `_setupTransport`. -/
structure Transport where
  ready : Bool
  connectCount : Nat
deriving DecidableEq, Repr

/-- Embedding of `Handler._setupTransport`: extract DTLS parameters, emit
`@connect` upward and await it, then set `_transportReady`.  If the
awaited emission rejects, `_transportReady` stays unset. -/
def setupTransport (env : Env) (tr : Transport) :
    Transport × Option Err :=
  match env.connectErr with
  | some c => ({ tr with connectCount := tr.connectCount + 1 },
               some (.negotiation c))
  | none => ({ ready := true, connectCount := tr.connectCount + 1 }, none)

/-! ### Firefox60 SendHandler -/

/-- An entry of the `encodings` array built by `Firefox60`
`SendHandler.send()` for simulcast and consumed by
`setMaxSpatialLayer`. -/
structure Encoding where
  rid : String
  active : Bool
  priority : String
  maxBitrate : Option Nat
deriving DecidableEq, Repr

/-- The `simulcast` option of `send()`: up to three bitrate caps. -/
structure Simulcast where
  low : Option Nat
  medium : Option Nat
  high : Option Nat
deriving DecidableEq, Repr

/-- State of a `Firefox60` `SendHandler`: the tracked-track set
`_tracks` (tracks are identified by numbers), the simulcast RID
counter `_nextRid`, the transport flags, and the remote ICE
parameters currently held by the remote-SDP builder. -/
structure FFSendSt where
  tracks : List Nat
  nextRid : Nat
  transport : Transport
  remoteIce : Nat
deriving DecidableEq, Repr

/-- The encodings array `send()` builds when `simulcast` is given:
one entry per present layer, rid = layer name followed by the current
value of `_nextRid`, all initially active. -/
def simulcastEncodings (sc : Simulcast) (nextRid : Nat) : List Encoding :=
  (match sc.low with
   | some b =>
     [{ rid := "low" ++ Nat.repr nextRid, active := true
        priority := "high", maxBitrate := some b }]
   | none => []) ++
  (match sc.medium with
   | some b =>
     [{ rid := "medium" ++ Nat.repr nextRid, active := true
        priority := "medium", maxBitrate := some b }]
   | none => []) ++
  (match sc.high with
   | some b =>
     [{ rid := "high" ++ Nat.repr nextRid, active := true
        priority := "low", maxBitrate := some b }]
   | none => [])

/-- The offer/answer round shared by the success path of `Firefox60`
`SendHandler.send()`: createOffer, setLocalDescription, first-round
transport setup (DTLS role client), then setRemoteDescription with
the builder's answer; the track joins `_tracks` only after the whole
round has succeeded.  Any failure leaves `_tracks` untouched (the
catch block only flips the transceiver back to inactive). -/
def ffSendRound (env : Env) (st : FFSendSt) (track : Nat)
    (tr0 : List Step) : Outcome FFSendSt :=
  match env.createOfferErr with
  | some c => { st := st, trace := tr0 ++ [.createOffer]
                err := some (.negotiation c) }
  | none =>
  match env.setLocalDescErr with
  | some c => { st := st, trace := tr0 ++ [.createOffer, .setLocalDesc]
                err := some (.negotiation c) }
  | none =>
    let tr1 := tr0 ++ [.createOffer, .setLocalDesc]
    if st.transport.ready then
      match env.setRemoteDescErr with
      | some c => { st := st, trace := tr1 ++ [.setRemoteDesc]
                    err := some (.negotiation c) }
      | none => { st := { st with tracks := st.tracks ++ [track] }
                  trace := tr1 ++ [.setRemoteDesc], err := none }
    else
      match setupTransport env st.transport with
      | (t, some e) => { st := { st with transport := t }
                         trace := tr1 ++ [.connectEmit], err := some e }
      | (t, none) =>
        let st' := { st with transport := t }
        match env.setRemoteDescErr with
        | some c => { st := st', trace := tr1 ++ [.connectEmit, .setRemoteDesc]
                      err := some (.negotiation c) }
        | none => { st := { st' with tracks := st'.tracks ++ [track] }
                    trace := tr1 ++ [.connectEmit, .setRemoteDesc], err := none }

/-- Embedding of `Firefox60` `SendHandler.send({ track, simulcast })`.  The
reuse-or-add transceiver work is one external `addTrack` step; when
`simulcast` is given the encodings are built with the current
`_nextRid`, the counter is incremented, and the sender's parameters
are set before the offer/answer round.  The second component is the
encodings array handed to `sender.setParameters` (empty when the
simulcast branch was not reached). -/
def ffSend (env : Env) (st : FFSendSt) (track : Nat)
    (simulcast : Option Simulcast) : Outcome FFSendSt × List Encoding :=
  if track ∈ st.tracks then
    ({ st := st, trace := [], err := some .duplicated }, [])
  else
    match env.addTrackErr with
    | some c =>
      ({ st := st, trace := [.addTrack], err := some (.negotiation c) }, [])
    | none =>
      match simulcast with
      | some sc =>
        let encodings := simulcastEncodings sc st.nextRid
        let st1 := { st with nextRid := st.nextRid + 1 }
        match env.setParametersErr with
        | some c => ({ st := st1, trace := [.addTrack, .setParameters]
                       err := some (.negotiation c) }, encodings)
        | none =>
          (ffSendRound env st1 track [.addTrack, .setParameters], encodings)
      | none => (ffSendRound env st track [.addTrack], [])

/-- Embedding of `Firefox60` `SendHandler.stopSending({ track })`: find the sender,
remove the track from the connection, run the round; `_tracks.delete`
happens after setLocalDescription but before the awaited
setRemoteDescription. -/
def ffStopSending (env : Env) (st : FFSendSt) (track : Nat) :
    Outcome FFSendSt :=
  if !env.senderFound then { st := st, trace := [], err := some .notFound }
  else
    match env.createOfferErr with
    | some c => { st := st, trace := [.removeTrack, .createOffer]
                  err := some (.negotiation c) }
    | none =>
    match env.setLocalDescErr with
    | some c => { st := st
                  trace := [.removeTrack, .createOffer, .setLocalDesc]
                  err := some (.negotiation c) }
    | none =>
      let st1 := { st with tracks := st.tracks.filter (· ≠ track) }
      match env.setRemoteDescErr with
      | some c => { st := st1
                    trace := [.removeTrack, .createOffer, .setLocalDesc,
                              .setRemoteDesc]
                    err := some (.negotiation c) }
      | none => { st := st1
                  trace := [.removeTrack, .createOffer, .setLocalDesc,
                            .setRemoteDesc]
                  err := none }

/-- Embedding of `Firefox60` `SendHandler.replaceTrack({ track, newTrack })`:
duplicate check, sender lookup, device-level `replaceTrack` on the
sender, then swap the entries in `_tracks`; no offer/answer round. -/
def ffReplaceTrack (env : Env) (st : FFSendSt) (track newTrack : Nat) :
    Outcome FFSendSt :=
  if newTrack ∈ st.tracks then
    { st := st, trace := [], err := some .duplicated }
  else if !env.senderFound then
    { st := st, trace := [], err := some .notFound }
  else
    match env.replaceTrackErr with
    | some c => { st := st, trace := [.replaceTrack]
                  err := some (.negotiation c) }
    | none => { st := { st with
                  tracks := st.tracks.filter (· ≠ track) ++ [newTrack] }
                trace := [.replaceTrack], err := none }

/-- The `switch (spatialLayer)` block of `Firefox60`
`SendHandler.setMaxSpatialLayer`: toggle the `active` flags of the
first three encodings (`lowEncoding && ...` guards make out-of-range
layers no-ops); an unknown layer name matches no case and changes
nothing. -/
def setLayerActive (encodings : List Encoding) (spatialLayer : String) :
    List Encoding :=
  encodings.enum.map fun p =>
    let i := p.1
    let e := p.2
    if spatialLayer = "low" then
      if i = 0 then { e with active := true }
      else if i = 1 then { e with active := false }
      else if i = 2 then { e with active := false }
      else e
    else if spatialLayer = "medium" then
      if i = 0 then { e with active := true }
      else if i = 1 then { e with active := true }
      else if i = 2 then { e with active := false }
      else e
    else if spatialLayer = "high" then
      if i = 0 then { e with active := true }
      else if i = 1 then { e with active := true }
      else if i = 2 then { e with active := true }
      else e
    else e

/-- Embedding of `Firefox60` `SendHandler.setMaxSpatialLayer`:
sender lookup, read its parameters (given by the environment as
`encodings`), toggle the flags, write them back with `setParameters`.
The second component is the encodings array handed to
`setParameters`. -/
def ffSetMaxSpatialLayer (env : Env) (st : FFSendSt)
    (encodings : List Encoding) (spatialLayer : String) :
    Outcome FFSendSt × List Encoding :=
  if !env.senderFound then
    ({ st := st, trace := [], err := some .notFound }, encodings)
  else
    let newEnc := setLayerActive encodings spatialLayer
    match env.setParametersErr with
    | some c => ({ st := st, trace := [.setParameters]
                   err := some (.negotiation c) }, newEnc)
    | none => ({ st := st, trace := [.setParameters], err := none }, newEnc)

/-- Embedding of `Firefox60` `SendHandler.restartIce({ remoteIceParameters })`: the
builder's remote ICE parameters are updated first; before the first
completed round the method then just returns.  The `createOffer` call
of the renegotiation is not awaited in the source, so its rejection
never reaches the caller; the step itself still happens. -/
def ffRestartIce (env : Env) (st : FFSendSt) (p : Nat) :
    Outcome FFSendSt :=
  let st1 := { st with remoteIce := p }
  if !st1.transport.ready then { st := st1, trace := [], err := none }
  else
    match env.setLocalDescErr with
    | some c => { st := st1, trace := [.createOffer, .setLocalDesc]
                  err := some (.negotiation c) }
    | none =>
    match env.setRemoteDescErr with
    | some c => { st := st1
                  trace := [.createOffer, .setLocalDesc, .setRemoteDesc]
                  err := some (.negotiation c) }
    | none => { st := st1
                trace := [.createOffer, .setLocalDesc, .setRemoteDesc]
                err := none }

/-- Embedding of `Firefox60` `Handler.updateIceServers`: Firefox does not implement
`pc.setConfiguration()`, so the operation unconditionally throws
`UnsupportedError` before touching anything. -/
def ffUpdateIceServers (St : Type) (st : St) (_iceServers : List Nat) :
    Outcome St :=
  { st := st, trace := [], err := some .unsupported }

/-! ### Firefox60 RecvHandler -/

/-- One value of the `Firefox60` `RecvHandler._receiverInfos` map:
mid, kind, closed flag, stream/track ids and the remote RTP
parameters kept verbatim (identified here by a number). -/
structure FFRecvInfo where
  mid : String
  kind : String
  closed : Bool
  streamId : String
  trackId : String
  rtpParameters : Nat
deriving DecidableEq, Repr

/-- State of a `Firefox60` `RecvHandler`: `_receiverInfos` as an
insertion-ordered association list, plus the transport flags and the
builder's remote ICE parameters. -/
structure FFRecvSt where
  receiverInfos : List (String × FFRecvInfo)
  transport : Transport
  remoteIce : Nat
deriving DecidableEq, Repr

/-- The receiver info `receive()` constructs:
`mid = kind[0] + '-' + id`, `trackId = kind + '-' + id`. -/
def ffMakeInfo (id kind : String) (rtpParameters : Nat) : FFRecvInfo :=
  { mid := kind.take 1 ++ "-" ++ id
    kind := kind
    closed := false
    streamId := id
    trackId := kind ++ "-" ++ id
    rtpParameters := rtpParameters }

/-- Embedding of `Firefox60` `RecvHandler.receive({ id, kind, rtpParameters })`.
The new entry is inserted before the round; the catch block that
deletes it again wraps only `setRemoteDescription` — failures at
`createAnswer`, `setLocalDescription`, transport setup or the
transceiver lookup propagate with the entry still in the map. -/
def ffReceive (env : Env) (st : FFRecvSt) (id kind : String)
    (rtpParameters : Nat) : Outcome FFRecvSt :=
  if st.receiverInfos.any (fun p => p.1 = id) then
    { st := st, trace := [], err := some .duplicated }
  else
    let st1 := { st with receiverInfos :=
      st.receiverInfos ++ [(id, ffMakeInfo id kind rtpParameters)] }
    match env.setRemoteDescErr with
    | some c =>
      { st := { st1 with receiverInfos :=
          st1.receiverInfos.filter (fun p => p.1 ≠ id) }
        trace := [.setRemoteDesc], err := some (.negotiation c) }
    | none =>
    match env.createAnswerErr with
    | some c => { st := st1, trace := [.setRemoteDesc, .createAnswer]
                  err := some (.negotiation c) }
    | none =>
    match env.setLocalDescErr with
    | some c => { st := st1
                  trace := [.setRemoteDesc, .createAnswer, .setLocalDesc]
                  err := some (.negotiation c) }
    | none =>
      let tr1 := [.setRemoteDesc, .createAnswer, .setLocalDesc]
      if st1.transport.ready then
        if env.transceiverFound then { st := st1, trace := tr1, err := none }
        else { st := st1, trace := tr1, err := some .notFound }
      else
        match setupTransport env st1.transport with
        | (t, some e) => { st := { st1 with transport := t }
                           trace := tr1 ++ [.connectEmit], err := some e }
        | (t, none) =>
          let st2 := { st1 with transport := t }
          if env.transceiverFound then
            { st := st2, trace := tr1 ++ [.connectEmit], err := none }
          else
            { st := st2, trace := tr1 ++ [.connectEmit]
              err := some .notFound }

/-- Embedding of `Firefox60` `RecvHandler.stopReceiving({ id })`: the entry is
looked up, its `closed` flag is set, and the round runs with the
entry still in the map; the entry is never removed.  The
`createAnswer` call is not awaited in the source, so its rejection
never reaches the caller. -/
def ffStopReceiving (env : Env) (st : FFRecvSt) (id : String) :
    Outcome FFRecvSt :=
  if !(st.receiverInfos.any (fun p => p.1 = id)) then
    { st := st, trace := [], err := some .notFound }
  else
    let st1 := { st with receiverInfos := (st.receiverInfos.map
      (fun p => if p.1 = id then (p.1, { p.2 with closed := true }) else p)) }
    match env.setRemoteDescErr with
    | some c => { st := st1, trace := [.setRemoteDesc]
                  err := some (.negotiation c) }
    | none =>
    match env.setLocalDescErr with
    | some c => { st := st1
                  trace := [.setRemoteDesc, .createAnswer, .setLocalDesc]
                  err := some (.negotiation c) }
    | none => { st := st1
                trace := [.setRemoteDesc, .createAnswer, .setLocalDesc]
                err := none }

/-! ### Safari11 SendHandler (plan B) -/

/-- State of a `Safari11` `SendHandler`: the tracks of the local
`MediaStream` `_stream`, the transport flags, and the builder's
remote ICE parameters. -/
structure SafSendSt where
  streamTracks : List Nat
  transport : Transport
  remoteIce : Nat
deriving DecidableEq, Repr

/-- Embedding of `Safari11` `SendHandler.send({ track })` (the `simulcast`
argument is ignored by this engine).  The track joins `_stream`
first; the catch block removes it again on any failure, so the
tracked set is restored while transport flags that were already set
stay set. -/
def safSend (env : Env) (st : SafSendSt) (track : Nat) :
    Outcome SafSendSt :=
  if track ∈ st.streamTracks then
    { st := st, trace := [], err := some .duplicated }
  else
    let add := st.streamTracks ++ [track]
    let undo := fun (s : SafSendSt) =>
      { s with streamTracks := s.streamTracks.filter (· ≠ track) }
    let st1 := { st with streamTracks := add }
    match env.addTrackErr with
    | some c => { st := undo st1, trace := [.addTrack]
                  err := some (.negotiation c) }
    | none =>
    match env.createOfferErr with
    | some c => { st := undo st1, trace := [.addTrack, .createOffer]
                  err := some (.negotiation c) }
    | none =>
    match env.setLocalDescErr with
    | some c => { st := undo st1
                  trace := [.addTrack, .createOffer, .setLocalDesc]
                  err := some (.negotiation c) }
    | none =>
      let tr1 := [.addTrack, .createOffer, .setLocalDesc]
      if st1.transport.ready then
        match env.setRemoteDescErr with
        | some c => { st := undo st1, trace := tr1 ++ [.setRemoteDesc]
                      err := some (.negotiation c) }
        | none => { st := st1, trace := tr1 ++ [.setRemoteDesc], err := none }
      else
        match setupTransport env st1.transport with
        | (t, some e) => { st := undo { st1 with transport := t }
                           trace := tr1 ++ [.connectEmit], err := some e }
        | (t, none) =>
          let st2 := { st1 with transport := t }
          match env.setRemoteDescErr with
          | some c => { st := undo st2
                        trace := tr1 ++ [.connectEmit, .setRemoteDesc]
                        err := some (.negotiation c) }
          | none => { st := st2
                      trace := tr1 ++ [.connectEmit, .setRemoteDesc]
                      err := none }

/-- Embedding of `Safari11` `SendHandler.stopSending({ track })`: the sender and
the stream track are removed before the round.  A
`setLocalDescription` failure is deliberately swallowed when the
stream has no tracks left ("Failed to create channels" is expected
then); a `stable` signaling state short-circuits before the answer. -/
def safStopSending (env : Env) (st : SafSendSt) (track : Nat) :
    Outcome SafSendSt :=
  if !env.senderFound then { st := st, trace := [], err := some .notFound }
  else
    let st1 := { st with streamTracks := st.streamTracks.filter (· ≠ track) }
    match env.createOfferErr with
    | some c => { st := st1, trace := [.removeTrack, .createOffer]
                  err := some (.negotiation c) }
    | none =>
    match env.setLocalDescErr with
    | some c =>
      if st1.streamTracks = [] then
        { st := st1, trace := [.removeTrack, .createOffer, .setLocalDesc]
          err := none }
      else
        { st := st1, trace := [.removeTrack, .createOffer, .setLocalDesc]
          err := some (.negotiation c) }
    | none =>
      if env.signalingStable then
        { st := st1, trace := [.removeTrack, .createOffer, .setLocalDesc]
          err := none }
      else
        match env.setRemoteDescErr with
        | some c => { st := st1
                      trace := [.removeTrack, .createOffer, .setLocalDesc,
                                .setRemoteDesc]
                      err := some (.negotiation c) }
        | none => { st := st1
                    trace := [.removeTrack, .createOffer, .setLocalDesc,
                              .setRemoteDesc]
                    err := none }

/-- Embedding of `Safari11` `SendHandler.setMaxSpatialLayer`: this engine has no
per-layer encoding control; the method throws `UnsupportedError`
before touching any state. -/
def safSetMaxSpatialLayer (st : SafSendSt) (_track : Nat)
    (_spatialLayer : String) : Outcome SafSendSt :=
  { st := st, trace := [], err := some .unsupported }

/-- Embedding of `Safari11` `SendHandler.restartIce({ remoteIceParameters })`:
update the builder's remote ICE parameters, return if the transport
has not completed its first round, otherwise renegotiate.  As in
Firefox60, the `createOffer` call is not awaited. -/
def safSendRestartIce (env : Env) (st : SafSendSt) (p : Nat) :
    Outcome SafSendSt :=
  let st1 := { st with remoteIce := p }
  if !st1.transport.ready then { st := st1, trace := [], err := none }
  else
    match env.setLocalDescErr with
    | some c => { st := st1, trace := [.createOffer, .setLocalDesc]
                  err := some (.negotiation c) }
    | none =>
    match env.setRemoteDescErr with
    | some c => { st := st1
                  trace := [.createOffer, .setLocalDesc, .setRemoteDesc]
                  err := some (.negotiation c) }
    | none => { st := st1
                trace := [.createOffer, .setLocalDesc, .setRemoteDesc]
                err := none }

/-! ### Safari11 RecvHandler (plan B) -/

/-- One encoding of the remote RTP parameters handed to `receive()`:
primary ssrc and optional rtx ssrc. -/
structure RecvEncoding where
  ssrc : Nat
  rtx : Option Nat
deriving DecidableEq, Repr

/-- The remote RTP parameters `receive()` reads: `encodings[0]` and
`rtcp.cname`. -/
structure RecvRtpParameters where
  encodings : List RecvEncoding
  cname : String
deriving DecidableEq, Repr

/-- One value of the `Safari11` `RecvHandler._receiverInfos` map. -/
structure SafRecvInfo where
  kind : String
  streamId : String
  trackId : String
  ssrc : Nat
  cname : String
  rtxSsrc : Option Nat
deriving DecidableEq, Repr

/-- State of a `Safari11` `RecvHandler`: the seen-kinds set `_kinds`
(insertion-ordered), `_receiverInfos`, the transport flags, and the
flag the source reads as `_transportUpdated` — a property no code
path ever assigns, so it stays `false` for the handler's lifetime
while `_setupTransport` sets `_transportReady` instead. -/
structure SafRecvSt where
  kinds : List String
  receiverInfos : List (String × SafRecvInfo)
  transport : Transport
  transportUpdated : Bool
  remoteIce : Nat
deriving DecidableEq, Repr

/-- Insertion (`Set.add`) into the seen-kinds set. -/
def addKind (kinds : List String) (kind : String) : List String :=
  if kind ∈ kinds then kinds else kinds ++ [kind]

/-- The receiver info `Safari11` `receive()` constructs from the first
encoding and the rtcp cname. -/
def safMakeInfo (id kind : String) (e : RecvEncoding) (cname : String) :
    SafRecvInfo :=
  { kind := kind
    streamId := id
    trackId := kind ++ "-" ++ id
    ssrc := e.ssrc
    cname := cname
    rtxSsrc := e.rtx }

/-- Embedding of `Safari11` `RecvHandler.receive({ id, kind, rtpParameters })`.
Reading `encodings[0].ssrc` of empty encodings raises before any
mutation.  The entry and the kind are inserted before the round; the
catch block around `setRemoteDescription` deletes the entry but not
the kind; failures at `createAnswer`, `setLocalDescription`,
transport setup or the receiver lookup leave both.  The readiness
gate reads the never-assigned `_transportUpdated`, so every
successful call runs `_setupTransport` again. -/
def safReceive (env : Env) (st : SafRecvSt) (id kind : String)
    (rtpParameters : RecvRtpParameters) : Outcome SafRecvSt :=
  if st.receiverInfos.any (fun p => p.1 = id) then
    { st := st, trace := [], err := some .duplicated }
  else
    match rtpParameters.encodings with
    | [] => { st := st, trace := [], err := some .typeErr }
    | e :: _ =>
      let st1 := { st with
        receiverInfos :=
          st.receiverInfos ++ [(id, safMakeInfo id kind e rtpParameters.cname)]
        kinds := addKind st.kinds kind }
      match env.setRemoteDescErr with
      | some c =>
        { st := { st1 with receiverInfos :=
            st1.receiverInfos.filter (fun p => p.1 ≠ id) }
          trace := [.setRemoteDesc], err := some (.negotiation c) }
      | none =>
      match env.createAnswerErr with
      | some c => { st := st1, trace := [.setRemoteDesc, .createAnswer]
                    err := some (.negotiation c) }
      | none =>
      match env.setLocalDescErr with
      | some c => { st := st1
                    trace := [.setRemoteDesc, .createAnswer, .setLocalDesc]
                    err := some (.negotiation c) }
      | none =>
        let tr1 := [.setRemoteDesc, .createAnswer, .setLocalDesc]
        if st1.transportUpdated then
          if env.transceiverFound then { st := st1, trace := tr1, err := none }
          else { st := st1, trace := tr1, err := some .notFound }
        else
          match setupTransport env st1.transport with
          | (t, some e') => { st := { st1 with transport := t }
                              trace := tr1 ++ [.connectEmit], err := some e' }
          | (t, none) =>
            let st2 := { st1 with transport := t }
            if env.transceiverFound then
              { st := st2, trace := tr1 ++ [.connectEmit], err := none }
            else
              { st := st2, trace := tr1 ++ [.connectEmit]
                err := some .notFound }

/-- Embedding of `Safari11` `RecvHandler.stopReceiving({ id })`: the entry is
deleted from the map before the round (the seen-kinds set keeps the
kind); the `createAnswer` call is not awaited. -/
def safStopReceiving (env : Env) (st : SafRecvSt) (id : String) :
    Outcome SafRecvSt :=
  if !(st.receiverInfos.any (fun p => p.1 = id)) then
    { st := st, trace := [], err := some .notFound }
  else
    let st1 := { st with receiverInfos :=
      st.receiverInfos.filter (fun p => p.1 ≠ id) }
    match env.setRemoteDescErr with
    | some c => { st := st1, trace := [.setRemoteDesc]
                  err := some (.negotiation c) }
    | none =>
    match env.setLocalDescErr with
    | some c => { st := st1
                  trace := [.setRemoteDesc, .createAnswer, .setLocalDesc]
                  err := some (.negotiation c) }
    | none => { st := st1
                trace := [.setRemoteDesc, .createAnswer, .setLocalDesc]
                err := none }

/-- Embedding of `Safari11` `RecvHandler.restartIce({ remoteIceParameters })`:
update the builder's remote ICE parameters, return unless the
transport is ready (this path checks `_transportReady`), otherwise
run the recv-side round; here `createAnswer` is awaited. -/
def safRecvRestartIce (env : Env) (st : SafRecvSt) (p : Nat) :
    Outcome SafRecvSt :=
  let st1 := { st with remoteIce := p }
  if !st1.transport.ready then { st := st1, trace := [], err := none }
  else
    match env.setRemoteDescErr with
    | some c => { st := st1, trace := [.setRemoteDesc]
                  err := some (.negotiation c) }
    | none =>
    match env.createAnswerErr with
    | some c => { st := st1, trace := [.setRemoteDesc, .createAnswer]
                  err := some (.negotiation c) }
    | none =>
    match env.setLocalDescErr with
    | some c => { st := st1
                  trace := [.setRemoteDesc, .createAnswer, .setLocalDesc]
                  err := some (.negotiation c) }
    | none => { st := st1
                trace := [.setRemoteDesc, .createAnswer, .setLocalDesc]
                err := none }

/-! ### Freshly constructed handler states -/

/-- A `Firefox60` `SendHandler` as constructed: no tracks, `_nextRid`
starts at 1, transport not ready. -/
def ffSendInit : FFSendSt :=
  { tracks := [], nextRid := 1
    transport := { ready := false, connectCount := 0 }, remoteIce := 0 }

/-- A `Firefox60` `RecvHandler` as constructed. -/
def ffRecvInit : FFRecvSt :=
  { receiverInfos := []
    transport := { ready := false, connectCount := 0 }, remoteIce := 0 }

/-- A `Safari11` `SendHandler` as constructed. -/
def safSendInit : SafSendSt :=
  { streamTracks := []
    transport := { ready := false, connectCount := 0 }, remoteIce := 0 }

/-- A `Safari11` `RecvHandler` as constructed. -/
def safRecvInit : SafRecvSt :=
  { kinds := [], receiverInfos := []
    transport := { ready := false, connectCount := 0 }
    transportUpdated := false, remoteIce := 0 }

/-- The rid strings a simulcast-enabled `send()` produces from a
given value of the rid counter. -/
def ridStrings (sc : Simulcast) (nextRid : Nat) : List String :=
  (simulcastEncodings sc nextRid).map (fun e => e.rid)

/-! ## Decimal representation facts

`send()` builds rid strings as layer name ++ `Nat.repr` of the rid
counter; the disjointness of rid sets across calls rests on the
injectivity of `Nat.repr`, proved here from first principles. -/

/-- Structural decimal digit list of a natural number (most
significant first); agrees with `Nat.toDigits 10`. -/
def natDigits (n : Nat) : List Char :=
  if n < 10 then [Nat.digitChar n]
  else natDigits (n / 10) ++ [Nat.digitChar (n % 10)]
decreasing_by exact Nat.div_lt_self (by omega) (by omega)

theorem toDigitsCore_eq (fuel n : Nat) (acc : List Char) (h : n < fuel) :
    Nat.toDigitsCore 10 fuel n acc = natDigits n ++ acc := by
  induction fuel generalizing n acc with
  | zero => omega
  | succ f ih =>
    unfold Nat.toDigitsCore
    by_cases h10 : n / 10 = 0
    · have hn : n < 10 := by omega
      rw [natDigits]
      simp [h10, hn, Nat.mod_eq_of_lt hn]
    · have hn : ¬ n < 10 := by
        intro hlt
        exact h10 (Nat.div_eq_of_lt hlt)
      have hdiv : n / 10 < f := by
        have h1 : n / 10 < n := Nat.div_lt_self (by omega) (by omega)
        omega
      rw [natDigits]
      simp only [h10, if_false, hn, ih (n / 10) _ hdiv, List.append_assoc,
        List.singleton_append]

/-- Decimal value of a digit list. -/
def digitsVal (l : List Char) : Nat :=
  l.foldl (fun a c => a * 10 + (c.toNat - 48)) 0

theorem digitsVal_append_singleton (l : List Char) (c : Char) :
    digitsVal (l ++ [c]) = digitsVal l * 10 + (c.toNat - 48) := by
  simp [digitsVal, List.foldl_append]

theorem digitChar_val : ∀ d : Nat, d < 10 →
    (Nat.digitChar d).toNat - 48 = d := by decide

theorem digitsVal_natDigits (n : Nat) : digitsVal (natDigits n) = n := by
  induction n using Nat.strong_induction_on with
  | _ n ih =>
    rw [natDigits]
    by_cases h : n < 10
    · simp only [h, if_true, digitsVal, List.foldl_cons, List.foldl_nil,
        Nat.zero_mul, Nat.zero_add]
      exact digitChar_val n h
    · have h1 : n / 10 < n := Nat.div_lt_self (by omega) (by omega)
      simp only [h, if_false, digitsVal_append_singleton, ih (n / 10) h1,
        digitChar_val (n % 10) (Nat.mod_lt n (by omega))]
      omega

theorem natRepr_eq_natDigits (n : Nat) :
    Nat.repr n = (natDigits n).asString := by
  show (Nat.toDigits 10 n).asString = _
  rw [Nat.toDigits, toDigitsCore_eq (n + 1) n [] (by omega),
    List.append_nil]

theorem natRepr_inj {a b : Nat} (h : Nat.repr a = Nat.repr b) : a = b := by
  rw [natRepr_eq_natDigits, natRepr_eq_natDigits] at h
  have hd : natDigits a = natDigits b := by
    have := congrArg String.data h
    simpa [List.asString] using this
  calc a = digitsVal (natDigits a) := (digitsVal_natDigits a).symm
    _ = digitsVal (natDigits b) := by rw [hd]
    _ = b := digitsVal_natDigits b

/-- The three layer names used for simulcast rids. -/
def layerNames : List String := ["low", "medium", "high"]

theorem rid_eq_iff {l1 l2 : String} (h1 : l1 ∈ layerNames)
    (h2 : l2 ∈ layerNames) {n m : Nat}
    (h : l1 ++ Nat.repr n = l2 ++ Nat.repr m) : l1 = l2 ∧ n = m := by
  have hdata : l1.data ++ (Nat.repr n).data = l2.data ++ (Nat.repr m).data := by
    have := congrArg String.data h
    simpa [String.data_append] using this
  have hrepr : (Nat.repr n).data = (Nat.repr m).data → n = m := by
    intro hh
    exact natRepr_inj (by
      cases hn : Nat.repr n
      cases hm : Nat.repr m
      simp_all)
  simp only [layerNames, List.mem_cons, List.not_mem_nil, or_false] at h1 h2
  rcases h1 with rfl | rfl | rfl <;> rcases h2 with rfl | rfl | rfl <;>
    simp_all

/-! ## Registry helper lemmas -/

theorem any_key_filter_ne {α : Type} (l : List (String × α)) (id : String) :
    (l.filter (fun p => p.1 ≠ id)).any (fun p => p.1 = id) = false := by
  induction l with
  | nil => rfl
  | cons x xs ih => by_cases hx : x.1 = id <;> simp [hx, ih]

theorem filter_key_of_any_eq_false {α : Type} (l : List (String × α))
    (id : String) (h : l.any (fun p => p.1 = id) = false) :
    l.filter (fun p => p.1 ≠ id) = l := by
  induction l with
  | nil => rfl
  | cons x xs ih =>
    simp only [List.any_cons, Bool.or_eq_false_iff] at h
    have hx : x.1 ≠ id := by simpa using h.1
    rw [List.filter_cons_of_pos (by simpa using hx), ih h.2]

theorem filter_ne_of_not_mem (l : List Nat) (t : Nat) (h : t ∉ l) :
    l.filter (· ≠ t) = l := by
  induction l with
  | nil => rfl
  | cons x xs ih =>
    simp only [List.mem_cons, not_or] at h
    rw [List.filter_cons_of_pos (by simpa using Ne.symm h.1), ih h.2]

theorem any_key_map_closed (l : List (String × FFRecvInfo)) (id id' : String) :
    ((l.map (fun p =>
        if p.1 = id then (p.1, { p.2 with closed := true }) else p)).any
      (fun p => p.1 = id')) = l.any (fun p => p.1 = id') := by
  induction l with
  | nil => rfl
  | cons x xs ih => by_cases hx : x.1 = id <;> simp [hx, ih]

theorem filter_key_eq_nil_of_any_false {α : Type} (l : List (String × α))
    (id : String) (h : l.any (fun p => p.1 = id) = false) :
    l.filter (fun p => p.1 = id) = [] := by
  induction l with
  | nil => rfl
  | cons x xs ih =>
    simp only [List.any_cons, Bool.or_eq_false_iff] at h
    rw [List.filter_cons_of_neg (by simpa using h.1), ih h.2]

/-! ## Claims -/

/-- C8: an operation the engine does not support (simulcast layer
control on Safari11, ICE-server reconfiguration on Firefox60) fails
with the unsupported-operation error and produces no side effects:
state, registry and flags are returned unchanged and no transport
step runs. -/
theorem c8_unsupported_noop :
    (∀ (st : SafSendSt) (track : Nat) (layer : String),
        safSetMaxSpatialLayer st track layer =
          { st := st, trace := [], err := some .unsupported }) ∧
    (∀ (St : Type) (st : St) (ice : List Nat),
        ffUpdateIceServers St st ice =
          { st := st, trace := [], err := some .unsupported }) :=
  ⟨fun _ _ _ => rfl, fun _ _ _ => rfl⟩

/-- C6: on the Firefox60 engine (per-layer encoding control), with
three simulcast encodings, `setMaxSpatialLayer('medium')` hands the
sender active flags `[true, true, false]` and
`setMaxSpatialLayer('low')` hands it `[true, false, false]`. -/
theorem c6_spatial_layer_flags (env : Env) (st : FFSendSt)
    (e0 e1 e2 : Encoding) (h : env.senderFound = true) :
    ((ffSetMaxSpatialLayer env st [e0, e1, e2] "medium").2.map
        (fun e => e.active) = [true, true, false]) ∧
    ((ffSetMaxSpatialLayer env st [e0, e1, e2] "low").2.map
        (fun e => e.active) = [true, false, false]) := by
  unfold ffSetMaxSpatialLayer
  cases env.setParametersErr <;>
    simp [h, setLayerActive, List.enum, List.enumFrom]

/-- Concrete instance of `c6_spatial_layer_flags`. -/
theorem c6_spatial_layer_flags_witness :
    ((ffSetMaxSpatialLayer okEnv ffSendInit
        [{ rid := "r0", active := false, priority := "high", maxBitrate := none },
         { rid := "r1", active := false, priority := "medium", maxBitrate := none },
         { rid := "r2", active := true, priority := "low", maxBitrate := none }]
        "medium").2.map (fun e => e.active) = [true, true, false]) ∧
    ((ffSetMaxSpatialLayer okEnv ffSendInit
        [{ rid := "r0", active := false, priority := "high", maxBitrate := none },
         { rid := "r1", active := false, priority := "medium", maxBitrate := none },
         { rid := "r2", active := true, priority := "low", maxBitrate := none }]
        "low").2.map (fun e => e.active) = [true, false, false]) :=
  c6_spatial_layer_flags okEnv ffSendInit _ _ _ rfl

/-- C5: every modelled `restartIce` first updates the builder's
remote ICE parameters; before the first completed round it then
returns with no offer/answer step at all and no other state change,
while after the first round it runs the full connectivity-restart
renegotiation. -/
theorem c5_restartIce_gate :
    (∀ (env : Env) (st : FFSendSt) (p : Nat), st.transport.ready = false →
        ffRestartIce env st p =
          { st := { st with remoteIce := p }, trace := [], err := none }) ∧
    (∀ (st : FFSendSt) (p : Nat), st.transport.ready = true →
        ffRestartIce okEnv st p =
          { st := { st with remoteIce := p }
            trace := [.createOffer, .setLocalDesc, .setRemoteDesc]
            err := none }) ∧
    (∀ (env : Env) (st : SafSendSt) (p : Nat), st.transport.ready = false →
        safSendRestartIce env st p =
          { st := { st with remoteIce := p }, trace := [], err := none }) ∧
    (∀ (st : SafSendSt) (p : Nat), st.transport.ready = true →
        safSendRestartIce okEnv st p =
          { st := { st with remoteIce := p }
            trace := [.createOffer, .setLocalDesc, .setRemoteDesc]
            err := none }) ∧
    (∀ (env : Env) (st : SafRecvSt) (p : Nat), st.transport.ready = false →
        safRecvRestartIce env st p =
          { st := { st with remoteIce := p }, trace := [], err := none }) ∧
    (∀ (st : SafRecvSt) (p : Nat), st.transport.ready = true →
        safRecvRestartIce okEnv st p =
          { st := { st with remoteIce := p }
            trace := [.setRemoteDesc, .createAnswer, .setLocalDesc]
            err := none }) := by
  refine ⟨?_, ?_, ?_, ?_, ?_, ?_⟩ <;> intros <;>
    simp_all [ffRestartIce, safSendRestartIce, safRecvRestartIce, okEnv]

/-- Concrete instances of `c5_restartIce_gate`, one per conjunct. -/
theorem c5_restartIce_gate_witness :
    (ffRestartIce okEnv ffSendInit 3 =
      { st := { ffSendInit with remoteIce := 3 }, trace := [], err := none }) ∧
    (ffRestartIce okEnv
        { ffSendInit with transport := { ready := true, connectCount := 1 } } 3 =
      { st := { ffSendInit with
                  transport := { ready := true, connectCount := 1 }
                  remoteIce := 3 }
        trace := [.createOffer, .setLocalDesc, .setRemoteDesc]
        err := none }) ∧
    (safSendRestartIce okEnv safSendInit 4 =
      { st := { safSendInit with remoteIce := 4 }, trace := [], err := none }) ∧
    (safSendRestartIce okEnv
        { safSendInit with transport := { ready := true, connectCount := 1 } } 4 =
      { st := { safSendInit with
                  transport := { ready := true, connectCount := 1 }
                  remoteIce := 4 }
        trace := [.createOffer, .setLocalDesc, .setRemoteDesc]
        err := none }) ∧
    (safRecvRestartIce okEnv safRecvInit 5 =
      { st := { safRecvInit with remoteIce := 5 }, trace := [], err := none }) ∧
    (safRecvRestartIce okEnv
        { safRecvInit with transport := { ready := true, connectCount := 1 } } 5 =
      { st := { safRecvInit with
                  transport := { ready := true, connectCount := 1 }
                  remoteIce := 5 }
        trace := [.setRemoteDesc, .createAnswer, .setLocalDesc]
        err := none }) :=
  ⟨c5_restartIce_gate.1 okEnv ffSendInit 3 rfl,
   c5_restartIce_gate.2.1 _ 3 rfl,
   c5_restartIce_gate.2.2.1 okEnv safSendInit 4 rfl,
   c5_restartIce_gate.2.2.2.1 _ 4 rfl,
   c5_restartIce_gate.2.2.2.2.1 okEnv safRecvInit 5 rfl,
   c5_restartIce_gate.2.2.2.2.2 _ 5 rfl⟩

/-- The local capability set of the C7 scenario: one opus codec at
48000/2, payload type 100, with its own feedback and parameters. -/
def localCapsC7 : Ortc.RtpCapabilitySet :=
  { codecs :=
      [{ name := "opus", kind := "audio", clockRate := 48000
         channels := some 2, preferredPayloadType := 100
         rtcpFeedback := [{ fbType := "nack", parameter := none }]
         parameters := [("useinbandfec", "1")] }]
    headerExtensions := [] }

/-- The remote (router) capability set of the C7 scenario: opus at
48000/2, payload type 111, feedback transport-cc. -/
def remoteCapsC7 : Ortc.RtpCapabilitySet :=
  { codecs :=
      [{ name := "opus", kind := "audio", clockRate := 48000
         channels := some 2, preferredPayloadType := 111
         rtcpFeedback := [{ fbType := "transport-cc", parameter := none }]
         parameters := [("minptime", "10")] }]
    headerExtensions := [] }

/-- C7 (the negotiator is modelled from the spec, `ortc` being absent
from the sources): with one local opus (48000/2, payload 100) and one
remote opus (48000/2, payload 111, transport-cc), the extended set
has exactly one codec with send payload 100 / receive payload 111,
and the sending projection carries the local feedback and parameters,
not the remote ones. -/
theorem c7_extended_opus :
    (Ortc.computeExtendedCapabilities localCapsC7 remoteCapsC7).codecs.map
        (fun c => (c.sendPayloadType, c.recvPayloadType)) = [(100, 111)] ∧
    ((Ortc.getSendingRtpParameters "audio"
        (Ortc.computeExtendedCapabilities localCapsC7 remoteCapsC7)).codecs.map
        (fun c => c.rtcpFeedback) =
      [[{ fbType := "nack", parameter := none }]]) ∧
    ((Ortc.getSendingRtpParameters "audio"
        (Ortc.computeExtendedCapabilities localCapsC7 remoteCapsC7)).codecs.map
        (fun c => c.parameters) = [[("useinbandfec", "1")]]) ∧
    ([[{ fbType := "nack", parameter := none }]] ≠
      ([[{ fbType := "transport-cc", parameter := none }]] :
        List (List Ortc.RtcpFeedback))) := by
  refine ⟨?_, ?_, ?_, ?_⟩ <;> decide

/-- A Firefox60 recv handler holding one live entry for id `a` after
a completed first round. -/
def ffRecvStA : FFRecvSt :=
  { receiverInfos := [("a",
      { mid := "a-a", kind := "audio", closed := false, streamId := "a"
        trackId := "audio-a", rtpParameters := 5 })]
    transport := { ready := true, connectCount := 1 }, remoteIce := 0 }

/-- C2 fails on the Firefox60 recv handler: after a successful
`stopReceiving('a')` the entry stays in the map (marked closed), so
`receive` with the same id throws the duplicate error instead of
succeeding. -/
theorem c2_counterexample :
    (ffStopReceiving okEnv ffRecvStA "a").err = none ∧
    (ffReceive okEnv (ffStopReceiving okEnv ffRecvStA "a").st "a" "audio" 5).err
      = some .duplicated ∧
    (ffStopReceiving okEnv ffRecvStA "a").st.receiverInfos.length = 1 := by
  decide

theorem safReceive_ok (st : SafRecvSt) (id kind : String)
    (rtp : RecvRtpParameters) (e : RecvEncoding) (rest : List RecvEncoding)
    (h : st.receiverInfos.any (fun p => p.1 = id) = false)
    (he : rtp.encodings = e :: rest) :
    (safReceive okEnv st id kind rtp).err = none ∧
    (safReceive okEnv st id kind rtp).st.receiverInfos =
      st.receiverInfos ++ [(id, safMakeInfo id kind e rtp.cname)] := by
  unfold safReceive
  rw [if_neg (by simp [h])]
  simp only [he]
  cases hbt : st.transportUpdated <;>
    simp [okEnv, setupTransport, hbt]

/-- C2 amended: on the Safari11 recv handler a successful
`stopReceiving(id)` followed by `receive` with the same id succeeds
and leaves exactly one entry for that id; on the Firefox60 recv
handler the stopped entry stays in the map and the second `receive`
fails with the duplicate-session error. -/
theorem c2_stop_then_receive :
    (∀ (st : SafRecvSt) (id kind : String) (rtp : RecvRtpParameters)
        (e : RecvEncoding) (rest : List RecvEncoding),
        st.receiverInfos.any (fun p => p.1 = id) = true →
        rtp.encodings = e :: rest →
        (safStopReceiving okEnv st id).err = none ∧
        (safReceive okEnv (safStopReceiving okEnv st id).st id kind rtp).err
          = none ∧
        ((safReceive okEnv (safStopReceiving okEnv st id).st id kind
            rtp).st.receiverInfos.filter (fun p => p.1 = id)).length = 1) ∧
    (∀ (st : FFRecvSt) (id kind : String) (rtp : Nat),
        st.receiverInfos.any (fun p => p.1 = id) = true →
        (ffStopReceiving okEnv st id).err = none ∧
        (ffReceive okEnv (ffStopReceiving okEnv st id).st id kind rtp).err =
          some .duplicated) := by
  constructor
  · intro st id kind rtp e rest h he
    have hstop : safStopReceiving okEnv st id =
        { st := { st with receiverInfos :=
            st.receiverInfos.filter (fun p => p.1 ≠ id) }
          trace := [.setRemoteDesc, .createAnswer, .setLocalDesc]
          err := none } := by
      unfold safStopReceiving
      rw [if_neg (by simp [h])]
      rfl
    have hrec := safReceive_ok
      { st with receiverInfos := st.receiverInfos.filter (fun p => p.1 ≠ id) }
      id kind rtp e rest (any_key_filter_ne st.receiverInfos id) he
    refine ⟨by rw [hstop], ?_, ?_⟩
    · rw [hstop]
      exact hrec.1
    · rw [hstop]
      have hreg := hrec.2
      rw [hreg, List.filter_append,
        filter_key_eq_nil_of_any_false _ _ (any_key_filter_ne _ _)]
      simp
  · intro st id kind rtp h
    have hstop : ffStopReceiving okEnv st id =
        { st := { st with receiverInfos := (st.receiverInfos.map
            (fun p =>
              if p.1 = id then (p.1, { p.2 with closed := true }) else p)) }
          trace := [.setRemoteDesc, .createAnswer, .setLocalDesc]
          err := none } := by
      unfold ffStopReceiving
      rw [if_neg (by simp [h])]
      rfl
    have hany : ((st.receiverInfos.map
        (fun p =>
          if p.1 = id then (p.1, { p.2 with closed := true }) else p)).any
        (fun p => p.1 = id)) = true := by
      rw [any_key_map_closed]
      exact h
    refine ⟨by rw [hstop], ?_⟩
    rw [hstop]
    unfold ffReceive
    rw [if_pos hany]

/-- Concrete instance of `c2_stop_then_receive`. -/
theorem c2_stop_then_receive_witness :
    ((safReceive okEnv
        (safStopReceiving okEnv
          { kinds := ["audio"]
            receiverInfos := [("a",
              { kind := "audio", streamId := "a", trackId := "audio-a"
                ssrc := 7, cname := "c", rtxSsrc := none })]
            transport := { ready := true, connectCount := 1 }
            transportUpdated := false, remoteIce := 0 } "a").st "a" "audio"
        { encodings := [{ ssrc := 7, rtx := none }]
          cname := "c" }).st.receiverInfos.filter
      (fun p => p.1 = "a")).length = 1 :=
  (c2_stop_then_receive.1 _ "a" "audio" _ { ssrc := 7, rtx := none } []
    (by decide) rfl).2.2

/-- The remote RTP parameters used by the C3 scenario. -/
def rtpC3 : RecvRtpParameters :=
  { encodings := [{ ssrc := 1, rtx := none }], cname := "c" }

/-- C3 is violated by the Safari11 recv handler: its readiness gate
reads `_transportUpdated`, which no code path ever sets (only
`_transportReady` is set), so two consecutive successful `receive`
calls run `_setupTransport` twice and emit the upward `@connect`
notification twice, re-deriving the DTLS role on the second round. -/
theorem c3_connect_reemitted :
    (safReceive okEnv safRecvInit "a" "audio" rtpC3).err = none ∧
    (safReceive okEnv safRecvInit "a" "audio"
        rtpC3).st.transport.connectCount = 1 ∧
    (safReceive okEnv (safReceive okEnv safRecvInit "a" "audio" rtpC3).st
        "b" "audio" rtpC3).err = none ∧
    (safReceive okEnv (safReceive okEnv safRecvInit "a" "audio" rtpC3).st
        "b" "audio" rtpC3).st.transport.connectCount = 2 ∧
    (safReceive okEnv (safReceive okEnv safRecvInit "a" "audio" rtpC3).st
        "b" "audio" rtpC3).st.transport.ready = true := by
  decide

/-- A Safari11 recv handler holding one live entry for id `a` after a
completed first round. -/
def safRecvStA : SafRecvSt :=
  { kinds := ["audio"]
    receiverInfos := [("a",
      { kind := "audio", streamId := "a", trackId := "audio-a"
        ssrc := 7, cname := "c", rtxSsrc := none })]
    transport := { ready := true, connectCount := 1 }
    transportUpdated := false, remoteIce := 0 }

/-- C4 fails on the code: Safari11 `stopReceiving` deletes the entry
from the registry before the offer/answer round, so when the round's
`setRemoteDescription` fails the entry is already gone instead of
still present. -/
theorem c4_counterexample :
    (safStopReceiving { okEnv with setRemoteDescErr := some 3 }
        safRecvStA "a").err = some (.negotiation 3) ∧
    (safStopReceiving { okEnv with setRemoteDescErr := some 3 }
        safRecvStA "a").st.receiverInfos = [] := by
  decide

/-- C4 amended: only Firefox60 `stopReceiving` keeps the entry
through the round (marked closed, in fact never removed, whatever the
round's outcome).  Firefox60 `stopSending` keeps the track through a
`createOffer`/`setLocalDescription` failure but removes it before the
awaited `setRemoteDescription`, and the Safari11 stop operations
remove the entry before the round starts, so a failed round leaves it
removed. -/
theorem c4_stop_entry_lifecycle :
    (∀ (env : Env) (st : FFRecvSt) (id : String),
        (ffStopReceiving env st id).st.receiverInfos.any (fun p => p.1 = id) =
          st.receiverInfos.any (fun p => p.1 = id)) ∧
    (∀ (env : Env) (st : FFSendSt) (t : Nat), env.senderFound = true →
        ((env.createOfferErr ≠ none ∨ env.setLocalDescErr ≠ none) →
          (ffStopSending env st t).st.tracks = st.tracks) ∧
        (env.createOfferErr = none → env.setLocalDescErr = none →
          (ffStopSending env st t).st.tracks = st.tracks.filter (· ≠ t))) ∧
    (∀ (env : Env) (st : SafSendSt) (t : Nat), env.senderFound = true →
        (safStopSending env st t).st.streamTracks =
          st.streamTracks.filter (· ≠ t)) ∧
    (∀ (env : Env) (st : SafRecvSt) (id : String),
        st.receiverInfos.any (fun p => p.1 = id) = true →
        (safStopReceiving env st id).st.receiverInfos =
          st.receiverInfos.filter (fun p => p.1 ≠ id)) := by
  refine ⟨?_, ?_, ?_, ?_⟩
  · intro env st id
    cases h : st.receiverInfos.any (fun p => p.1 = id) with
    | false =>
      unfold ffStopReceiving
      rw [if_pos (by simp [h])]
      exact h
    | true =>
      have hreg : (ffStopReceiving env st id).st.receiverInfos =
          st.receiverInfos.map
            (fun p =>
              if p.1 = id then (p.1, { p.2 with closed := true }) else p) := by
        unfold ffStopReceiving
        rw [if_neg (by simp [h])]
        cases env.setRemoteDescErr <;> cases env.setLocalDescErr <;> rfl
      rw [hreg, any_key_map_closed]
      exact h
  · intro env st t h
    cases henv : env.createOfferErr <;> cases henv2 : env.setLocalDescErr <;>
      cases henv3 : env.setRemoteDescErr <;>
        simp [ffStopSending, h, henv, henv2, henv3]
  · intro env st t h
    cases henv : env.createOfferErr <;> cases henv2 : env.setLocalDescErr <;>
      cases henv3 : env.setRemoteDescErr <;>
        cases hss : env.signalingStable <;>
          simp [safStopSending, h, henv, henv2, henv3, hss] <;>
            (try (split <;> rfl))
  · intro env st id h
    cases henv : env.setRemoteDescErr <;> cases henv2 : env.setLocalDescErr <;>
      simp [safStopReceiving, h, henv, henv2]

/-- Concrete instances of `c4_stop_entry_lifecycle`. -/
theorem c4_stop_entry_lifecycle_witness :
    ((ffStopSending { okEnv with createOfferErr := some 9 }
        { ffSendInit with tracks := [1] } 1).st.tracks = [1]) ∧
    ((ffStopSending okEnv { ffSendInit with tracks := [1] } 1).st.tracks =
      ([1].filter (· ≠ 1))) ∧
    ((safStopSending okEnv { safSendInit with streamTracks := [1] }
        1).st.streamTracks = ([1].filter (· ≠ 1))) ∧
    ((safStopReceiving okEnv safRecvStA "a").st.receiverInfos =
      safRecvStA.receiverInfos.filter (fun p => p.1 ≠ "a")) :=
  ⟨(c4_stop_entry_lifecycle.2.1 _ { ffSendInit with tracks := [1] } 1 rfl).1
      (Or.inl (by decide)),
   (c4_stop_entry_lifecycle.2.1 okEnv { ffSendInit with tracks := [1] } 1
      rfl).2 rfl rfl,
   c4_stop_entry_lifecycle.2.2.1 okEnv
     { safSendInit with streamTracks := [1] } 1 rfl,
   c4_stop_entry_lifecycle.2.2.2 okEnv safRecvStA "a" (by decide)⟩

theorem ffSendRound_tracks (env : Env) (st : FFSendSt) (t : Nat)
    (tr0 : List Step) : (ffSendRound env st t tr0).err ≠ none →
    (ffSendRound env st t tr0).st.tracks = st.tracks := by
  unfold ffSendRound setupTransport
  cases env.createOfferErr <;> cases env.setLocalDescErr <;>
    cases env.setRemoteDescErr <;> cases env.connectErr <;>
      cases hr : st.transport.ready <;> simp [hr]

/-- C1 fails on the code: a Firefox60 `receive` whose `createAnswer`
step fails returns the error with the newly-created entry still in
the receiver map — the rollback covers only the
`setRemoteDescription` step. -/
theorem c1_counterexample :
    (ffReceive { okEnv with createAnswerErr := some 7 } ffRecvInit
        "a" "audio" 5).err = some (.negotiation 7) ∧
    (ffReceive { okEnv with createAnswerErr := some 7 } ffRecvInit
        "a" "audio" 5).st.receiverInfos ≠ ffRecvInit.receiverInfos := by
  decide

/-- C1 amended: a failed `send` leaves the tracked-track set
unchanged on both engines, but a failed `receive` restores the
receiver map only when the failing step is `setRemoteDescription`;
a failure at `createAnswer`, `setLocalDescription`, transport setup
or the receiver lookup leaves the newly-created entry in the map, and
the Safari11 seen-kinds set keeps the kind in every failure case,
including the rolled-back one. -/
theorem c1_registry_rollback :
    (∀ (env : Env) (st : FFSendSt) (t : Nat) (sc : Option Simulcast),
        (ffSend env st t sc).1.err ≠ none →
        (ffSend env st t sc).1.st.tracks = st.tracks) ∧
    (∀ (env : Env) (st : SafSendSt) (t : Nat),
        (safSend env st t).err ≠ none →
        (safSend env st t).st.streamTracks = st.streamTracks) ∧
    (∀ (env : Env) (st : FFRecvSt) (id kind : String) (rtp : Nat),
        st.receiverInfos.any (fun p => p.1 = id) = false →
        ((env.setRemoteDescErr ≠ none →
            (ffReceive env st id kind rtp).st.receiverInfos =
              st.receiverInfos) ∧
         (env.setRemoteDescErr = none →
            (ffReceive env st id kind rtp).err ≠ none →
            (ffReceive env st id kind rtp).st.receiverInfos =
              st.receiverInfos ++ [(id, ffMakeInfo id kind rtp)]))) ∧
    (∀ (env : Env) (st : SafRecvSt) (id kind : String)
        (rtp : RecvRtpParameters) (e : RecvEncoding)
        (rest : List RecvEncoding),
        st.receiverInfos.any (fun p => p.1 = id) = false →
        rtp.encodings = e :: rest →
        ((safReceive env st id kind rtp).st.kinds =
            addKind st.kinds kind) ∧
        (env.setRemoteDescErr ≠ none →
            (safReceive env st id kind rtp).st.receiverInfos =
              st.receiverInfos) ∧
        (env.setRemoteDescErr = none →
            (safReceive env st id kind rtp).err ≠ none →
            (safReceive env st id kind rtp).st.receiverInfos =
              st.receiverInfos ++
                [(id, safMakeInfo id kind e rtp.cname)])) := by
  refine ⟨?_, ?_, ?_, ?_⟩
  · intro env st t sc h
    revert h
    by_cases hm : t ∈ st.tracks
    · simp [ffSend, hm]
    · unfold ffSend
      rw [if_neg hm]
      cases henv : env.addTrackErr <;> cases sc <;>
        cases hsp : env.setParametersErr <;> simp [henv, hsp] <;>
          intro h <;> exact ffSendRound_tracks _ _ _ _ h
  · intro env st t h
    revert h
    by_cases hm : t ∈ st.streamTracks
    · simp [safSend, hm]
    · unfold safSend setupTransport
      rw [if_neg hm]
      cases env.addTrackErr <;> cases env.createOfferErr <;>
        cases env.setLocalDescErr <;> cases env.setRemoteDescErr <;>
          cases env.connectErr <;> cases hr : st.transport.ready <;>
            simp [hr, List.filter_append, filter_ne_of_not_mem _ _ hm] <;>
              exact fun a ha hat => hm (hat ▸ ha)
  · intro env st id kind rtp h
    unfold ffReceive
    rw [if_neg (by simp [h])]
    cases henv : env.setRemoteDescErr with
    | some c =>
      refine ⟨fun _ => ?_, fun hnone => by simp [henv] at hnone⟩
      simp only
      rw [List.filter_append, filter_key_of_any_eq_false _ _ h]
      simp
    | none =>
      refine ⟨fun hr => absurd rfl hr, fun _ herr => ?_⟩
      revert herr
      cases henv2 : env.createAnswerErr <;>
        cases henv3 : env.setLocalDescErr <;>
          cases hr : st.transport.ready <;> cases henv4 : env.connectErr <;>
            cases htf : env.transceiverFound <;>
              simp [henv2, henv3, henv4, hr, htf, setupTransport]
  · intro env st id kind rtp e rest h he
    unfold safReceive
    rw [if_neg (by simp [h])]
    simp only [he]
    cases henv : env.setRemoteDescErr with
    | some c =>
      refine ⟨by simp, fun _ => ?_, fun hnone => by simp [henv] at hnone⟩
      simp only
      rw [List.filter_append, filter_key_of_any_eq_false _ _ h]
      simp
    | none =>
      refine ⟨?_, fun hr => absurd rfl hr, fun _ herr => ?_⟩
      · cases henv2 : env.createAnswerErr <;>
          cases henv3 : env.setLocalDescErr <;>
            cases hbt : st.transportUpdated <;>
              cases henv4 : env.connectErr <;>
                cases htf : env.transceiverFound <;>
                  simp [henv2, henv3, henv4, hbt, htf, setupTransport]
      · revert herr
        cases henv2 : env.createAnswerErr <;>
          cases henv3 : env.setLocalDescErr <;>
            cases hbt : st.transportUpdated <;>
              cases henv4 : env.connectErr <;>
                cases htf : env.transceiverFound <;>
                  simp [henv2, henv3, henv4, hbt, htf, setupTransport]

/-- Concrete instances of `c1_registry_rollback`. -/
theorem c1_registry_rollback_witness :
    ((ffSend { okEnv with addTrackErr := some 1 } ffSendInit 1
        none).1.st.tracks = ffSendInit.tracks) ∧
    ((safSend { okEnv with addTrackErr := some 1 } safSendInit
        1).st.streamTracks = safSendInit.streamTracks) ∧
    ((ffReceive { okEnv with setRemoteDescErr := some 2 } ffRecvInit
        "a" "audio" 5).st.receiverInfos = ffRecvInit.receiverInfos) ∧
    ((safReceive { okEnv with createAnswerErr := some 3 } safRecvInit
        "a" "audio"
        { encodings := [{ ssrc := 1, rtx := none }]
          cname := "c" }).st.receiverInfos =
      safRecvInit.receiverInfos ++
        [("a", safMakeInfo "a" "audio" { ssrc := 1, rtx := none } "c")]) :=
  ⟨c1_registry_rollback.1 _ ffSendInit 1 none (by decide),
   c1_registry_rollback.2.1 _ safSendInit 1 (by decide),
   (c1_registry_rollback.2.2.1 _ ffRecvInit "a" "audio" 5 rfl).1 (by decide),
   (c1_registry_rollback.2.2.2 _ safRecvInit "a" "audio"
      { encodings := [{ ssrc := 1, rtx := none }], cname := "c" }
      { ssrc := 1, rtx := none } [] rfl rfl).2.2 rfl (by decide)⟩

/-- C9 fails on the code: Safari11 `stopSending` on the last track
returns success although the awaited `setLocalDescription` step
failed (the source deliberately ignores the error when no sending
tracks remain). -/
theorem c9_counterexample :
    (safStopSending { okEnv with setLocalDescErr := some 5 }
        { safSendInit with streamTracks := [1] } 1).err = none ∧
    (safStopSending { okEnv with setLocalDescErr := some 5 }
        { safSendInit with streamTracks := [1] } 1).trace =
      [.removeTrack, .createOffer, .setLocalDesc] := by
  decide

/-- C9 amended: every awaited transport-step failure is re-raised to
the caller, with two exceptions visible in the source: Safari11
`stopSending` swallows a `setLocalDescription` failure when the
stream has no tracks left, and the un-awaited `createOffer` /
`createAnswer` calls (both senders' `restartIce`, both recv
`stopReceiving` paths) lose their rejections.  Each conjunct states,
for one operation, that a successful return implies none of the
awaited steps on its executed path was made to fail. -/
theorem c9_error_propagation :
    (∀ (env : Env) (st : FFSendSt) (t : Nat) (sc : Option Simulcast),
        (ffSend env st t sc).1.err = none →
        env.addTrackErr = none ∧ env.createOfferErr = none ∧
        env.setLocalDescErr = none ∧ env.setRemoteDescErr = none ∧
        (sc.isSome → env.setParametersErr = none) ∧
        (st.transport.ready = false → env.connectErr = none)) ∧
    (∀ (env : Env) (st : SafSendSt) (t : Nat),
        (safSend env st t).err = none →
        env.addTrackErr = none ∧ env.createOfferErr = none ∧
        env.setLocalDescErr = none ∧ env.setRemoteDescErr = none ∧
        (st.transport.ready = false → env.connectErr = none)) ∧
    (∀ (env : Env) (st : FFRecvSt) (id kind : String) (rtp : Nat),
        (ffReceive env st id kind rtp).err = none →
        env.setRemoteDescErr = none ∧ env.createAnswerErr = none ∧
        env.setLocalDescErr = none ∧ env.transceiverFound = true ∧
        (st.transport.ready = false → env.connectErr = none)) ∧
    (∀ (env : Env) (st : SafRecvSt) (id kind : String)
        (rtp : RecvRtpParameters),
        (safReceive env st id kind rtp).err = none →
        env.setRemoteDescErr = none ∧ env.createAnswerErr = none ∧
        env.setLocalDescErr = none ∧ env.transceiverFound = true ∧
        (st.transportUpdated = false → env.connectErr = none)) ∧
    (∀ (env : Env) (st : FFSendSt) (t : Nat),
        (ffStopSending env st t).err = none →
        env.createOfferErr = none ∧ env.setLocalDescErr = none ∧
        env.setRemoteDescErr = none) ∧
    (∀ (env : Env) (st : SafSendSt) (t : Nat),
        (safStopSending env st t).err = none →
        env.createOfferErr = none ∧
        (env.setLocalDescErr ≠ none → st.streamTracks.filter (· ≠ t) = []) ∧
        (env.setLocalDescErr = none → env.signalingStable = false →
          env.setRemoteDescErr = none)) ∧
    (∀ (env : Env) (st : FFRecvSt) (id : String),
        (ffStopReceiving env st id).err = none →
        env.setRemoteDescErr = none ∧ env.setLocalDescErr = none) ∧
    (∀ (env : Env) (st : SafRecvSt) (id : String),
        (safStopReceiving env st id).err = none →
        env.setRemoteDescErr = none ∧ env.setLocalDescErr = none) ∧
    (∀ (env : Env) (st : FFSendSt) (t newT : Nat),
        (ffReplaceTrack env st t newT).err = none →
        env.replaceTrackErr = none) ∧
    (∀ (env : Env) (st : FFSendSt) (p : Nat),
        (ffRestartIce env st p).err = none → st.transport.ready = true →
        env.setLocalDescErr = none ∧ env.setRemoteDescErr = none) ∧
    (∀ (env : Env) (st : SafSendSt) (p : Nat),
        (safSendRestartIce env st p).err = none → st.transport.ready = true →
        env.setLocalDescErr = none ∧ env.setRemoteDescErr = none) ∧
    (∀ (env : Env) (st : SafRecvSt) (p : Nat),
        (safRecvRestartIce env st p).err = none → st.transport.ready = true →
        env.setRemoteDescErr = none ∧ env.createAnswerErr = none ∧
        env.setLocalDescErr = none) := by
  refine ⟨?_, ?_, ?_, ?_, ?_, ?_, ?_, ?_, ?_, ?_, ?_, ?_⟩
  · intro env st t sc h
    revert h
    by_cases hm : t ∈ st.tracks
    · simp [ffSend, hm]
    · unfold ffSend ffSendRound setupTransport
      rw [if_neg hm]
      cases env.addTrackErr <;> cases sc <;> cases env.setParametersErr <;>
        cases env.createOfferErr <;> cases env.setLocalDescErr <;>
          cases env.setRemoteDescErr <;> cases env.connectErr <;>
            cases hr : st.transport.ready <;> simp [hr]
  · intro env st t h
    revert h
    by_cases hm : t ∈ st.streamTracks
    · simp [safSend, hm]
    · unfold safSend setupTransport
      rw [if_neg hm]
      cases env.addTrackErr <;> cases env.createOfferErr <;>
        cases env.setLocalDescErr <;> cases env.setRemoteDescErr <;>
          cases env.connectErr <;> cases hr : st.transport.ready <;>
            simp [hr]
  · intro env st id kind rtp h
    revert h
    by_cases hm : st.receiverInfos.any (fun p => p.1 = id) = true
    · simp [ffReceive, hm]
    · unfold ffReceive setupTransport
      rw [if_neg hm]
      cases env.setRemoteDescErr <;> cases env.createAnswerErr <;>
        cases env.setLocalDescErr <;> cases env.connectErr <;>
          cases htf : env.transceiverFound <;>
            cases hr : st.transport.ready <;> simp [hr, htf]
  · intro env st id kind rtp h
    revert h
    by_cases hm : st.receiverInfos.any (fun p => p.1 = id) = true
    · simp [safReceive, hm]
    · unfold safReceive setupTransport
      rw [if_neg hm]
      cases rtp.encodings <;> cases env.setRemoteDescErr <;>
        cases env.createAnswerErr <;> cases env.setLocalDescErr <;>
          cases env.connectErr <;> cases htf : env.transceiverFound <;>
            cases hbt : st.transportUpdated <;> simp [hbt, htf]
  · intro env st t h
    revert h
    unfold ffStopSending
    cases hs : env.senderFound <;> cases env.createOfferErr <;>
      cases env.setLocalDescErr <;> cases env.setRemoteDescErr <;> simp
  · intro env st t h
    revert h
    unfold safStopSending
    cases hs : env.senderFound <;> cases env.createOfferErr <;>
      cases hsl : env.setLocalDescErr <;> cases env.setRemoteDescErr <;>
        cases hss : env.signalingStable <;> simp [hsl, hss] <;>
          (try (intro h
                by_cases hP : ∀ a ∈ st.streamTracks, a = t
                · exact hP
                · rw [if_neg hP] at h
                  simp at h))
  · intro env st id h
    revert h
    by_cases hm : st.receiverInfos.any (fun p => p.1 = id) = true
    · unfold ffStopReceiving
      rw [if_neg (by simp [hm])]
      cases env.setRemoteDescErr <;> cases env.setLocalDescErr <;> simp
    · unfold ffStopReceiving
      rw [if_pos (by simp only [Bool.not_eq_true] at hm; simp [hm])]
      simp
  · intro env st id h
    revert h
    by_cases hm : st.receiverInfos.any (fun p => p.1 = id) = true
    · unfold safStopReceiving
      rw [if_neg (by simp [hm])]
      cases env.setRemoteDescErr <;> cases env.setLocalDescErr <;> simp
    · unfold safStopReceiving
      rw [if_pos (by simp only [Bool.not_eq_true] at hm; simp [hm])]
      simp
  · intro env st t newT h
    revert h
    unfold ffReplaceTrack
    by_cases hm : newT ∈ st.tracks
    · rw [if_pos hm]
      simp
    · rw [if_neg hm]
      cases hs : env.senderFound <;> cases env.replaceTrackErr <;> simp
  · intro env st p h
    revert h
    unfold ffRestartIce
    cases hr : st.transport.ready <;> cases hsl : env.setLocalDescErr <;>
      cases hsr : env.setRemoteDescErr <;> simp [hr, hsl, hsr]
  · intro env st p h
    revert h
    unfold safSendRestartIce
    cases hr : st.transport.ready <;> cases hsl : env.setLocalDescErr <;>
      cases hsr : env.setRemoteDescErr <;> simp [hr, hsl, hsr]
  · intro env st p h
    revert h
    unfold safRecvRestartIce
    cases hr : st.transport.ready <;> cases hsr : env.setRemoteDescErr <;>
      cases hca : env.createAnswerErr <;> cases hsl : env.setLocalDescErr <;>
        simp [hr, hsr, hca, hsl]

/-- Concrete instances of `c9_error_propagation`. -/
theorem c9_error_propagation_witness :
    (okEnv.addTrackErr = none ∧ okEnv.createOfferErr = none ∧
      okEnv.setLocalDescErr = none ∧ okEnv.setRemoteDescErr = none ∧
      ((some { low := some 100, medium := none, high := none } :
          Option Simulcast).isSome → okEnv.setParametersErr = none) ∧
      (ffSendInit.transport.ready = false → okEnv.connectErr = none)) ∧
    (({ okEnv with setLocalDescErr := some 5 } : Env).setLocalDescErr ≠ none →
      ({ safSendInit with streamTracks := [1] } :
        SafSendSt).streamTracks.filter (· ≠ 1) = []) :=
  ⟨c9_error_propagation.1 okEnv ffSendInit 1
      (some { low := some 100, medium := none, high := none }) (by decide),
   (c9_error_propagation.2.2.2.2.2.1 { okEnv with setLocalDescErr := some 5 }
      { safSendInit with streamTracks := [1] } 1 (by decide)).2.1⟩

theorem ffSendRound_nextRid (env : Env) (st : FFSendSt) (t : Nat)
    (tr0 : List Step) :
    (ffSendRound env st t tr0).st.nextRid = st.nextRid := by
  unfold ffSendRound setupTransport
  cases env.createOfferErr <;> cases env.setLocalDescErr <;>
    cases env.setRemoteDescErr <;> cases env.connectErr <;>
      cases hr : st.transport.ready <;> simp [hr]

theorem ffSend_simulcast (env : Env) (st : FFSendSt) (t : Nat)
    (sc : Simulcast) (hm : t ∉ st.tracks) (ha : env.addTrackErr = none) :
    (ffSend env st t (some sc)).2 = simulcastEncodings sc st.nextRid ∧
    (ffSend env st t (some sc)).1.st.nextRid = st.nextRid + 1 := by
  unfold ffSend
  rw [if_neg hm]
  cases hsp : env.setParametersErr <;>
    simp [ha, hsp, ffSendRound_nextRid]

theorem ridStrings_subset (sc : Simulcast) (n : Nat) :
    ∀ x ∈ ridStrings sc n,
      x ∈ ["low" ++ Nat.repr n, "medium" ++ Nat.repr n,
           "high" ++ Nat.repr n] := by
  intro x hx
  unfold ridStrings simulcastEncodings at hx
  cases hl : sc.low <;> cases hm2 : sc.medium <;> cases hh : sc.high <;>
    simp [hl, hm2, hh] at hx <;>
      (simp only [List.mem_cons, List.not_mem_nil, or_false]; tauto)

theorem ridStrings_disjoint {n m : Nat} (hnm : n ≠ m)
    (sc1 sc2 : Simulcast) :
    ∀ x ∈ ridStrings sc1 n, x ∉ ridStrings sc2 m := by
  intro x hx hx2
  have h1 := ridStrings_subset sc1 n x hx
  have h2 := ridStrings_subset sc2 m x hx2
  simp only [List.mem_cons, List.not_mem_nil, or_false] at h1 h2
  rcases h1 with rfl | rfl | rfl <;> rcases h2 with h2 | h2 | h2 <;>
    exact hnm (rid_eq_iff (by simp [layerNames]) (by simp [layerNames])
      h2).2

/-- C10: a simulcast-enabled `send()` hands the sender encodings
whose rids are the layer names suffixed with the current `_nextRid`,
then increments the counter by exactly one; over two consecutive
simulcast-enabled `send()` calls the counter grows strictly and the
two rid sets are disjoint. -/
theorem c10_simulcast_rid_counter :
    ∀ (env1 env2 : Env) (st : FFSendSt) (t1 t2 : Nat) (sc1 sc2 : Simulcast),
      t1 ∉ st.tracks → env1.addTrackErr = none →
      t2 ∉ (ffSend env1 st t1 (some sc1)).1.st.tracks →
      env2.addTrackErr = none →
      ((ffSend env1 st t1 (some sc1)).2 =
          simulcastEncodings sc1 st.nextRid ∧
        (ffSend env1 st t1 (some sc1)).1.st.nextRid = st.nextRid + 1 ∧
        (ffSend env2 (ffSend env1 st t1 (some sc1)).1.st t2 (some sc2)).2 =
          simulcastEncodings sc2 (st.nextRid + 1) ∧
        (ffSend env2 (ffSend env1 st t1 (some sc1)).1.st t2
            (some sc2)).1.st.nextRid = st.nextRid + 2 ∧
        ∀ x ∈ ridStrings sc1 st.nextRid,
          x ∉ ridStrings sc2 (st.nextRid + 1)) := by
  intro env1 env2 st t1 t2 sc1 sc2 h1 ha1 h2 ha2
  obtain ⟨he1, hn1⟩ := ffSend_simulcast env1 st t1 sc1 h1 ha1
  obtain ⟨he2, hn2⟩ := ffSend_simulcast env2 _ t2 sc2 h2 ha2
  refine ⟨he1, hn1, ?_, ?_, ridStrings_disjoint (by omega) sc1 sc2⟩
  · rw [he2, hn1]
  · rw [hn2, hn1]

/-- Concrete instance of `c10_simulcast_rid_counter`: two 3-layer
simulcast sends on a fresh Firefox60 send handler. -/
theorem c10_simulcast_rid_counter_witness :
    (ffSend okEnv ffSendInit 1
        (some { low := some 100, medium := some 300, high := some 900 })).2 =
      simulcastEncodings
        { low := some 100, medium := some 300, high := some 900 } 1 ∧
    (ffSend okEnv ffSendInit 1
        (some { low := some 100, medium := some 300
                high := some 900 })).1.st.nextRid = 2 ∧
    (ffSend okEnv
        (ffSend okEnv ffSendInit 1
          (some { low := some 100, medium := some 300
                  high := some 900 })).1.st 2
        (some { low := some 100, medium := some 300, high := some 900 })).2 =
      simulcastEncodings
        { low := some 100, medium := some 300, high := some 900 } 2 ∧
    (ffSend okEnv
        (ffSend okEnv ffSendInit 1
          (some { low := some 100, medium := some 300
                  high := some 900 })).1.st 2
        (some { low := some 100, medium := some 300
                high := some 900 })).1.st.nextRid = 3 ∧
    (∀ x ∈ ridStrings
        { low := some 100, medium := some 300, high := some 900 } 1,
      x ∉ ridStrings
        { low := some 100, medium := some 300, high := some 900 } 2) :=
  c10_simulcast_rid_counter okEnv okEnv ffSendInit 1 2
    { low := some 100, medium := some 300, high := some 900 }
    { low := some 100, medium := some 300, high := some 900 }
    (by decide) rfl (by decide) rfl

end Mediasoup
